import Mathlib

/-!
Shallow embedding of the booking-system microservices (Express + SQLite,
one handler per REST route) as pure state-transition functions.

Modelling conventions, applied uniformly:
* each service's single SQLite table becomes a `List` of row structures,
  threaded explicitly through every handler;
* `CURRENT_TIMESTAMP` becomes a `now : Nat` parameter (an abstract clock tick);
* values produced by outside libraries (`uuidv4()`, `bcrypt.hash`, sqlite
  AUTOINCREMENT row ids, the simulated gateway coin-flip) are passed in as
  parameters, since the handlers treat them as opaque inputs;
* `express-validator` format verdicts that depend on library internals
  (`isEmail`, `isISO8601`) are carried on the request as boolean fields;
  numeric range checks (`isInt`, `isFloat` bounds) are translated directly;
* SQL `DECIMAL(10,2)` money columns and JavaScript numeric amounts are
  modelled as `ℚ`;
* fire-and-forget `axios` calls to peer services are omitted: they never
  change the calling service's own state or response (their failure is only
  logged), which is exactly the behaviour under study here.
-/

namespace UserService

/-- Row of the `users` table (src/services/user-service/server.js). -/
structure User where
  id : Int
  email : String
  password : String
  name : String
  created_at : Nat
  updated_at : Nat
deriving DecidableEq

/-- The `users` table. -/
abbrev UsersDb := List User

/-- Body of `POST /register`. `email` is the value after `normalizeEmail`,
`name` after `trim`; `emailValid` is the `isEmail` validator verdict. -/
structure RegisterReq where
  email : String
  emailValid : Bool
  password : String
  name : String
deriving DecidableEq

/-- The `express-validator` chain on `POST /register`:
`isEmail`, `isLength(\x7bmin: 6\x7d)` on password, `isLength(\x7bmin: 2\x7d)` on name. -/
def validRegister (r : RegisterReq) : Bool :=
  r.emailValid && (6 ≤ r.password.length) && (2 ≤ r.name.length)

/-- Responses of `POST /register` (database-error paths omitted). -/
inductive RegisterResult where
  | validationError400
  | userExists400
  | created201 (id : Int) (email : String) (name : String)
deriving DecidableEq

/-- Handler of `POST /register`: reject invalid bodies, reject an email that
already has a row (`SELECT id FROM users WHERE email = ?`), otherwise insert
the new user with the bcrypt hash and answer 201. -/
def register (db : UsersDb) (r : RegisterReq) (hashedPassword : String)
    (nextId : Int) (now : Nat) : RegisterResult × UsersDb :=
  if !(validRegister r) then (.validationError400, db)
  else if (db.find? (fun u => u.email == r.email)).isSome then
    (.userExists400, db)
  else
    (.created201 nextId r.email r.name,
     db ++ [⟨nextId, r.email, hashedPassword, r.name, now, now⟩])

/-- Responses of `GET /profile` after token verification. -/
inductive ProfileResult where
  | notFound404
  | ok200 (id : Int) (email : String) (name : String) (created_at : Nat)
deriving DecidableEq

/-- Handler of `GET /profile`: look the verified token's `userId` up;
404 when the row is gone. -/
def getProfile (db : UsersDb) (userId : Int) : ProfileResult :=
  match db.find? (fun u => u.id == userId) with
  | none => .notFound404
  | some u => .ok200 u.id u.email u.name u.created_at

/-- Body of `PUT /profile`. Supplied `name` is the value after `trim`,
supplied `email` after `normalizeEmail`; `emailValid` is the `isEmail`
verdict for a supplied email (irrelevant when `email` is absent). -/
structure UpdateProfileReq where
  name : Option String
  email : Option String
  emailValid : Bool
deriving DecidableEq

/-- The `express-validator` chain on `PUT /profile`: both fields optional,
name `isLength(\x7bmin: 2\x7d)`, email `isEmail`. -/
def validUpdate (r : UpdateProfileReq) : Bool :=
  (match r.name with | none => true | some n => 2 ≤ n.length) &&
  (match r.email with | none => true | some _ => r.emailValid)

/-- JavaScript truthiness of an optional string field (`if (name)`):
absent and empty strings are falsy. -/
def truthy : Option String → Bool
  | none => false
  | some s => !s.isEmpty

/-- Responses of `PUT /profile` (database-error path omitted). -/
inductive UpdateResult where
  | validationError400
  | noFields400
  | ok200
deriving DecidableEq

/-- HTTP status carried by each `PUT /profile` response. -/
def UpdateResult.httpStatus : UpdateResult → Nat
  | .validationError400 => 400
  | .noFields400 => 400
  | .ok200 => 200

/-- Effect of the dynamically built
`UPDATE users SET [name = ?,][email = ?,]updated_at = CURRENT_TIMESTAMP`
on one row: each truthy field is overwritten, `updated_at` always is. -/
def applyUpdates (r : UpdateProfileReq) (now : Nat) (u : User) : User :=
  let u1 := if truthy r.name then { u with name := r.name.getD u.name } else u
  let u2 := if truthy r.email then { u1 with email := r.email.getD u1.email } else u1
  { u2 with updated_at := now }

/-- Handler of `PUT /profile`: after validation, collect the truthy fields;
with none of them answer 400, otherwise run the UPDATE keyed on the token's
`userId` and answer 200 — the handler never inspects `this.changes`, so the
200 is returned whether or not any row matched. -/
def updateProfile (db : UsersDb) (userId : Int) (r : UpdateProfileReq)
    (now : Nat) : UpdateResult × UsersDb :=
  if !(validUpdate r) then (.validationError400, db)
  else if !(truthy r.name) && !(truthy r.email) then (.noFields400, db)
  else
    (.ok200,
     db.map (fun u => if u.id == userId then applyUpdates r now u else u))

end UserService

namespace NotificationService

/-- Row of the `notifications` table
(src/services/notification-service/server.js). -/
structure Notification where
  id : Int
  user_id : Int
  type : String
  subject : String
  message : String
  booking_id : Option Int
  payment_id : Option String
  status : String
  sent_at : Nat
  read_at : Option Nat
deriving DecidableEq

/-- The `notifications` table. -/
abbrev NotificationsDb := List Notification

/-- Responses of `PUT /notifications/:id/read`
(database-error path omitted). -/
inductive MarkReadResult where
  | notFound404
  | ok200
deriving DecidableEq

/-- Handler of `PUT /notifications/:id/read`: run
`UPDATE notifications SET read_at = CURRENT_TIMESTAMP WHERE id = ?` and
answer 404 exactly when `this.changes === 0`, i.e. when no row has the id.
The UPDATE is unconditional on the previous `read_at`. -/
def markRead (db : NotificationsDb) (id : Int) (now : Nat) :
    MarkReadResult × NotificationsDb :=
  if (db.find? (fun n => n.id == id)).isSome then
    (.ok200, db.map (fun n => if n.id == id then { n with read_at := some now } else n))
  else
    (.notFound404, db)

/-- The stored `read_at` column of the first row with the given id
(`none` when the id is unknown). -/
def readAtOf (db : NotificationsDb) (id : Int) : Option (Option Nat) :=
  (db.find? (fun n => n.id == id)).map Notification.read_at

end NotificationService

namespace PaymentService

/-- Row of the `payments` table (src/services/payment-service/server.js). -/
structure Payment where
  id : Int
  payment_id : String
  booking_id : Int
  user_id : Int
  amount : ℚ
  currency : String
  payment_method : String
  status : String
  gateway_response : Option String
  transaction_id : Option String
  created_at : Nat
  updated_at : Nat
deriving DecidableEq

/-- The `payments` table. -/
abbrev PaymentsDb := List Payment

/-- The keys of the `paymentGateways` object, as checked by
`body(\x27paymentMethod\x27).isIn([...])`. -/
def supportedMethods : List String := ["stripe", "paypal", "square"]

/-- Outcome of one simulated gateway `process` call: the coin-flip result,
the transaction id it fabricates on success, and its message. -/
structure GatewayResult where
  success : Bool
  transactionId : Option String
  message : String
deriving DecidableEq

/-- Body of `POST /process` (`cardDetails` is only forwarded to the simulated
gateway, which ignores it, so it is omitted). -/
structure ProcessReq where
  bookingId : Int
  userId : Int
  amount : ℚ
  paymentMethod : String
deriving DecidableEq

/-- The `express-validator` chain on `POST /process`: `bookingId`/`userId`
`isInt(\x7bmin: 1\x7d)`, `amount` `isFloat(\x7bmin: 0.01\x7d)`,
`paymentMethod` among the supported gateways. -/
def validProcessReq (r : ProcessReq) : Bool :=
  (1 ≤ r.bookingId) && (1 ≤ r.userId) && ((1 : ℚ)/100 ≤ r.amount) &&
    supportedMethods.contains r.paymentMethod

/-- The `JSON.stringify(result)` stored into `gateway_response`. -/
def gatewayResponseJson (gw : GatewayResult) : String :=
  "\x7b\"success\":" ++ (if gw.success then "true" else "false") ++
  ",\"transactionId\":" ++
    (match gw.transactionId with | none => "null" | some t => "\"" ++ t ++ "\"") ++
  ",\"message\":\"" ++ gw.message ++ "\"\x7d"

/-- Responses of `POST /process` (database/gateway-crash error paths
omitted; the two remaining ones carry the generated external payment id). -/
inductive ProcessResult where
  | validationError400
  | completed200 (paymentId : String) (transactionId : Option String)
      (message : String) (amount : ℚ)
  | failed400 (paymentId : String) (message : String)
deriving DecidableEq

/-- Handler of `POST /process`: validate, insert a `pending` row with the
fresh `paymentId` (uuid) and rowid, run the simulated gateway, update the
row to `completed` or `failed` with the raw gateway outcome, and answer
accordingly. `rowId` models `this.lastID`, `gw` the gateway outcome. -/
def processPayment (db : PaymentsDb) (r : ProcessReq) (paymentId : String)
    (rowId : Int) (gw : GatewayResult) (now : Nat) : ProcessResult × PaymentsDb :=
  if !(validProcessReq r) then (.validationError400, db)
  else
    let pending : Payment :=
      ⟨rowId, paymentId, r.bookingId, r.userId, r.amount, "USD",
       r.paymentMethod, "pending", none, none, now, now⟩
    let status := if gw.success then "completed" else "failed"
    let db1 := (db ++ [pending]).map (fun p =>
      if p.id == rowId then
        { p with status := status, gateway_response := some (gatewayResponseJson gw),
                 transaction_id := gw.transactionId, updated_at := now }
      else p)
    if gw.success then
      (.completed200 paymentId gw.transactionId gw.message r.amount, db1)
    else
      (.failed400 paymentId gw.message, db1)

/-- The `JSON.stringify(\x7brefundId, reason, refundedAt\x7d)` stored into
`gateway_response` by a successful refund. -/
def refundResponseJson (refundId : String) (reason : String) (now : Nat) : String :=
  "\x7b\"refundId\":\"" ++ refundId ++ "\",\"reason\":\"" ++ reason ++
  "\",\"refundedAt\":\"" ++ toString now ++ "\"\x7d"

/-- Responses of `POST /refund/:paymentId` (database-error path omitted). -/
inductive RefundResult where
  | notFound404
  | refunded200 (refundId : String) (amount : ℚ)
  | refundFailed400
deriving DecidableEq

/-- True exactly on the success response of a refund. -/
def RefundResult.isRefunded : RefundResult → Bool
  | .refunded200 _ _ => true
  | _ => false

/-- Handler of `POST /refund/:paymentId`:
`SELECT * FROM payments WHERE payment_id = ? AND status = "completed"`;
404 when nothing matches; otherwise flip the simulated refund coin
(`refundSuccess`): on success update the row to `refunded` (the UPDATE is
keyed on `payment_id` alone) and answer 200, on failure answer 400 leaving
the table untouched. `uuid` models the `uuidv4()` inside the refund id. -/
def refundPayment (db : PaymentsDb) (paymentId : String) (reason : String)
    (refundSuccess : Bool) (uuid : String) (now : Nat) : RefundResult × PaymentsDb :=
  match db.find? (fun p => p.payment_id == paymentId && p.status == "completed") with
  | none => (.notFound404, db)
  | some payment =>
    if refundSuccess then
      (.refunded200 ("refund_" ++ uuid) payment.amount,
       db.map (fun p =>
         if p.payment_id == paymentId then
           { p with status := "refunded",
                    gateway_response := some (refundResponseJson ("refund_" ++ uuid) reason now),
                    updated_at := now }
         else p))
    else
      (.refundFailed400, db)

end PaymentService

namespace BookingService

/-- Row of the `services` table (catalog items, src/unnamed/part_006).
The free-text columns that no handler logic reads (`description`,
`image_url`, `created_at`) carry no behaviour and are kept as data. -/
structure Service where
  id : Int
  name : String
  type : String
  description : String
  price : ℚ
  available_slots : Int
  location : String
  image_url : String
deriving DecidableEq

/-- Row of the `bookings` table. -/
structure Booking where
  id : Int
  user_id : Int
  service_id : Int
  booking_date : String
  guests : Int
  total_amount : ℚ
  status : String
  payment_status : String
deriving DecidableEq

/-- The booking service's two tables. -/
structure BookingState where
  services : List Service
  bookings : List Booking
deriving DecidableEq

/-- Body of `POST /bookings`; `guests` is optional in the request.
`bookingDateISO8601` is the `isISO8601` validator verdict on the date. -/
structure CreateBookingReq where
  userId : Int
  serviceId : Int
  bookingDate : String
  bookingDateISO8601 : Bool
  guests : Option Int
deriving DecidableEq

/-- The `express-validator` chain on `POST /bookings`: `userId`/`serviceId`
`isInt(\x7bmin: 1\x7d)`, `bookingDate` `isISO8601`, `guests` optional
`isInt(\x7bmin: 1, max: 10\x7d)`. -/
def validCreateBooking (r : CreateBookingReq) : Bool :=
  (1 ≤ r.userId) && (1 ≤ r.serviceId) && r.bookingDateISO8601 &&
  (match r.guests with | none => true | some g => (1 ≤ g) && (g ≤ 10))

/-- Responses of `POST /bookings` (database-error paths omitted). -/
inductive CreateBookingResult where
  | validationError400
  | serviceNotFound404
  | notEnoughSlots400
  | created201 (bookingId : Int) (totalAmount : ℚ)
deriving DecidableEq

/-- True exactly on the 201 response of `POST /bookings`. -/
def CreateBookingResult.isCreated : CreateBookingResult → Bool
  | .created201 _ _ => true
  | _ => false

/-- Handler of `POST /bookings`: validate (`guests` defaults to 1), look the
service up, reject when `service.available_slots < guests`, otherwise
compute `totalAmount = service.price * guests`, insert the booking row
(status and payment status `pending`) and decrement the service's
`available_slots` by `guests`. `rowId` models `this.lastID`; the
fire-and-forget notification call leaves this service's state alone. -/
def createBooking (st : BookingState) (r : CreateBookingReq) (rowId : Int) :
    CreateBookingResult × BookingState :=
  if !(validCreateBooking r) then (.validationError400, st)
  else
    let guests := r.guests.getD 1
    match st.services.find? (fun s => s.id == r.serviceId) with
    | none => (.serviceNotFound404, st)
    | some service =>
      if service.available_slots < guests then (.notEnoughSlots400, st)
      else
        let totalAmount := service.price * (guests : ℚ)
        (.created201 rowId totalAmount,
         { services := st.services.map (fun s =>
             if s.id == r.serviceId then
               { s with available_slots := s.available_slots - guests }
             else s),
           bookings := st.bookings ++
             [⟨rowId, r.userId, r.serviceId, r.bookingDate, guests, totalAmount,
               "pending", "pending"⟩] })

/-- Run a sequence of `POST /bookings` requests one after the other
(each paired with its fresh rowid), keeping only the evolving state. -/
def runBookings (st : BookingState) (reqs : List (CreateBookingReq × Int)) :
    BookingState :=
  reqs.foldl (fun acc rr => (createBooking acc rr.1 rr.2).2) st

/-- Every catalog item has nonnegative remaining capacity. -/
abbrev SlotsNonneg (st : BookingState) : Prop :=
  ∀ s ∈ st.services, 0 ≤ s.available_slots

/-- Catalog item ids are pairwise distinct (the `services.id` PRIMARY KEY). -/
abbrev UniqueServiceIds (st : BookingState) : Prop :=
  st.services.Pairwise (fun a b => a.id ≠ b.id)

end BookingService

open UserService NotificationService PaymentService BookingService

/-- Sample stored account used to exercise the user-service handlers. -/
def sampleUser : User := ⟨1, "al@x.com", "bcrypt-hash", "Al", 0, 0⟩

/-- Registration request reusing `sampleUser`'s email. -/
def dupRegisterReq : RegisterReq := ⟨"al@x.com", true, "secret1", "Alfred"⟩

/-- Profile update supplying only a name. -/
def nameOnlyReq : UpdateProfileReq := ⟨some "Bob", none, true⟩

/-- Sample stored notification (unread). -/
def sampleNotification : Notification :=
  ⟨1, 7, "booking_created", "Booking Confirmation", "msg", some 3, none, "sent", 0, none⟩

/-- Sample completed payment used to exercise the refund handler. -/
def samplePayment : Payment :=
  ⟨1, "pay-1", 3, 7, 100, "USD", "stripe", "completed", none, some "stripe_tx", 0, 0⟩

/-- Payment request naming a gateway that does not exist. -/
def badMethodReq : ProcessReq := ⟨3, 7, 50, "bitcoin"⟩

/-- Sample catalog item with price 150 and 100 free slots. -/
def sampleService : Service :=
  ⟨1, "Mountain Cabin Retreat", "hotel", "cozy cabin", 150, 100, "Colorado", "img"⟩

/-- Sample catalog item with only 3 free slots. -/
def tightService : Service :=
  ⟨1, "Tech Conference 2024", "event", "annual conference", 150, 3, "San Francisco", "img"⟩

/-- Booking-service state holding `sampleService` alone. -/
def sampleBookingState : BookingState := ⟨[sampleService], []⟩

/-- Booking-service state holding `tightService` alone. -/
def tightBookingState : BookingState := ⟨[tightService], []⟩

/-- Valid booking request for two guests against item 1. -/
def twoGuestsReq : CreateBookingReq := ⟨7, 1, "2024-06-01", true, some 2⟩

/-- Booking request for five guests against item 1. -/
def fiveGuestsReq : CreateBookingReq := ⟨7, 1, "2024-06-01", true, some 5⟩

/-- Booking request with an out-of-range party size (20 guests). -/
def tooManyGuestsReq : CreateBookingReq := ⟨7, 1, "2024-06-01", true, some 20⟩

/-- Booking request with the party size omitted. -/
def noGuestsReq : CreateBookingReq := ⟨7, 1, "2024-06-01", true, none⟩

/-- Finding in a list mapped by a predicate-guarded update commutes with
finding first, provided the update leaves the predicate's verdict alone. -/
theorem find?_if_update_map {α : Type} (l : List α) (p : α → Bool) (f : α → α)
    (hp : ∀ a, p (f a) = p a) :
    (l.map (fun a => if p a then f a else a)).find? p
      = (l.find? p).map (fun a => if p a then f a else a) := by
  induction l with
  | nil => rfl
  | cons a l ih =>
    cases ha : p a with
    | true => simp [List.find?_cons, ha, hp]
    | false => simpa [List.find?_cons, ha, hp] using ih

/-- A guarded update maps a list to itself when no element satisfies the
guard. -/
theorem if_update_map_id {α : Type} (l : List α) (p : α → Bool) (f : α → α)
    (h : ∀ a ∈ l, ¬ p a) :
    l.map (fun a => if p a then f a else a) = l := by
  induction l with
  | nil => rfl
  | cons a l ih =>
    have ha : p a = false := by
      cases hpa : p a with
      | true => exact absurd hpa (h a (List.mem_cons_self a l))
      | false => rfl
    simp only [List.map_cons, ha, Bool.false_eq_true, if_false, List.cons.injEq, true_and]
    exact ih (fun b hb => h b (List.mem_cons_of_mem a hb))

/-- C8: a registration whose (normalized) email already belongs to a stored
account fails with the duplicate-key Conflict response (HTTP 400,
`User already exists`) and leaves the accounts table unchanged. -/
theorem register_duplicate_email_conflict
    (db : UsersDb) (r : RegisterReq) (hashedPassword : String)
    (nextId : Int) (now : Nat)
    (hv : validRegister r = true)
    (hdup : ∃ u ∈ db, u.email = r.email) :
    register db r hashedPassword nextId now = (.userExists400, db) := by
  have hfind : (db.find? (fun u => u.email == r.email)).isSome = true := by
    rw [List.find?_isSome]
    obtain ⟨u, hu, he⟩ := hdup
    exact ⟨u, hu, by simp [he]⟩
  simp [register, hv, hfind]

/-- Witness for C8 at a concrete store and request. -/
theorem register_duplicate_email_conflict_witness :
    validRegister dupRegisterReq = true ∧
    (∃ u ∈ [sampleUser], u.email = dupRegisterReq.email) ∧
    register [sampleUser] dupRegisterReq "other-hash" 2 9
      = (.userExists400, [sampleUser]) :=
  ⟨by decide, by decide,
   register_duplicate_email_conflict [sampleUser] dupRegisterReq "other-hash" 2 9
     (by decide) (by decide)⟩

/-- C5: a ProcessPayment request naming an unsupported gateway fails with
ValidationError (HTTP 400) and persists nothing: the payments table is
returned unchanged, before any record is inserted. -/
theorem processPayment_unsupported_method
    (db : PaymentsDb) (r : ProcessReq) (paymentId : String) (rowId : Int)
    (gw : GatewayResult) (now : Nat)
    (h : supportedMethods.contains r.paymentMethod = false) :
    processPayment db r paymentId rowId gw now = (.validationError400, db) := by
  have h' : r.paymentMethod ∉ supportedMethods := by simpa using h
  simp [processPayment, validProcessReq, h']

/-- Witness for C5 at a concrete request naming the gateway `bitcoin`. -/
theorem processPayment_unsupported_method_witness :
    supportedMethods.contains badMethodReq.paymentMethod = false ∧
    processPayment [samplePayment] badMethodReq "pay-2" 2 ⟨true, some "tx", "ok"⟩ 5
      = (.validationError400, [samplePayment]) :=
  ⟨by decide,
   processPayment_unsupported_method [samplePayment] badMethodReq "pay-2" 2
     ⟨true, some "tx", "ok"⟩ 5 (by decide)⟩

/-- C7: when an eligible payment exists but the simulated refund coin-flip
fails, RefundPayment answers failure (HTTP 400) and the payments table is
returned exactly as it was — no field of any record is modified. -/
theorem refundPayment_failure_leaves_record
    (db : PaymentsDb) (paymentId reason uuid : String) (now : Nat)
    (h : (db.find? (fun p => p.payment_id == paymentId && p.status == "completed")).isSome
          = true) :
    refundPayment db paymentId reason false uuid now = (.refundFailed400, db) := by
  obtain ⟨p, hp⟩ := Option.isSome_iff_exists.mp h
  simp [refundPayment, hp]

/-- Witness for C7 at a concrete completed payment. -/
theorem refundPayment_failure_leaves_record_witness :
    (([samplePayment] : PaymentsDb).find?
        (fun p => p.payment_id == "pay-1" && p.status == "completed")).isSome = true ∧
    refundPayment [samplePayment] "pay-1" "Customer request" false "u1" 4
      = (.refundFailed400, [samplePayment]) :=
  ⟨by decide,
   refundPayment_failure_leaves_record [samplePayment] "pay-1" "Customer request" "u1" 4
     (by decide)⟩

/-- C3 counterexample: MarkRead is not idempotent on the stored timestamp.
On a notification first marked read at tick 1, a second MarkRead at tick 2
overwrites `read_at` with 2 — the value the first call set does not survive,
because the UPDATE unconditionally writes `CURRENT_TIMESTAMP`. -/
theorem markRead_twice_changes_timestamp :
    readAtOf (markRead [sampleNotification] 1 1).2 1 = some (some 1) ∧
    readAtOf (markRead (markRead [sampleNotification] 1 1).2 1 2).2 1 = some (some 2) ∧
    (some (2 : Nat) : Option Nat) ≠ some 1 := by decide

/-- C3 as amended: every successful MarkRead call stores its own current
timestamp into `read_at`, so after a second call the stored timestamp is the
second call's time; the first call's value is preserved only when the two
calls carry the same timestamp. -/
theorem markRead_sets_read_at_each_call
    (db : NotificationsDb) (id : Int) (t1 t2 : Nat)
    (h : (db.find? (fun n => n.id == id)).isSome = true) :
    (markRead db id t1).1 = .ok200 ∧
    readAtOf (markRead db id t1).2 id = some (some t1) ∧
    (markRead (markRead db id t1).2 id t2).1 = .ok200 ∧
    readAtOf (markRead (markRead db id t1).2 id t2).2 id = some (some t2) := by
  obtain ⟨n, hn⟩ := Option.isSome_iff_exists.mp h
  have step : ∀ (d : NotificationsDb) (t : Nat) (m : Notification),
      d.find? (fun n => n.id == id) = some m →
      (markRead d id t).1 = .ok200 ∧
      (markRead d id t).2.find? (fun n => n.id == id)
        = some { m with read_at := some t } := by
    intro d t m hm
    have hs : (d.find? (fun n => n.id == id)).isSome = true := by rw [hm]; rfl
    have hidm : (m.id == id) = true := by simpa using List.find?_some hm
    constructor
    · unfold markRead; rw [if_pos hs]
    · unfold markRead; rw [if_pos hs]
      show (d.map _).find? _ = _
      rw [find?_if_update_map d (fun n => n.id == id)
            (fun n => { n with read_at := some t }) (fun _ => rfl), hm]
      have hm' : m.id = id := by simpa using hidm
      simp [hm']
  obtain ⟨h1, hf1⟩ := step db t1 n hn
  obtain ⟨h2, hf2⟩ := step (markRead db id t1).2 t2 _ hf1
  refine ⟨h1, ?_, h2, ?_⟩
  · rw [readAtOf, hf1]; rfl
  · rw [readAtOf, hf2]; rfl

/-- Witness for the amended C3 at a concrete notification and two ticks. -/
theorem markRead_sets_read_at_each_call_witness :
    ((([sampleNotification] : NotificationsDb).find? (fun n => n.id == 1)).isSome = true) ∧
    ((markRead [sampleNotification] 1 1).1 = .ok200 ∧
     readAtOf (markRead [sampleNotification] 1 1).2 1 = some (some 1) ∧
     (markRead (markRead [sampleNotification] 1 1).2 1 2).1 = .ok200 ∧
     readAtOf (markRead (markRead [sampleNotification] 1 1).2 1 2).2 1 = some (some 2)) :=
  ⟨by decide, markRead_sets_read_at_each_call [sampleNotification] 1 1 2 (by decide)⟩

/-- C6 counterexample: UpdateProfile with a verified token whose account id
resolves to no stored row does not fail with NotFound — the handler never
inspects `this.changes`, so it answers HTTP 200 (`Profile updated
successfully`) against the empty store. -/
theorem updateProfile_missing_account_not_404 :
    (([] : UsersDb).find? (fun u => u.id == 1) = none) ∧
    updateProfile [] 1 nameOnlyReq 5 = (.ok200, []) ∧
    UpdateResult.httpStatus .ok200 ≠ 404 := by decide

/-- C6 as amended: when the verified token's account id no longer resolves,
UpdateProfile still answers success (HTTP 200) and leaves the accounts table
unchanged; only GetProfile fails with NotFound on that id. -/
theorem updateProfile_missing_account
    (db : UsersDb) (userId : Int) (r : UpdateProfileReq) (now : Nat)
    (hv : validUpdate r = true)
    (hf : (truthy r.name || truthy r.email) = true)
    (hmiss : db.find? (fun u => u.id == userId) = none) :
    updateProfile db userId r now = (.ok200, db) ∧
    getProfile db userId = .notFound404 := by
  have hnone : ∀ u ∈ db, ¬ (u.id == userId) = true := List.find?_eq_none.mp hmiss
  have hmap : db.map (fun u => if u.id == userId then applyUpdates r now u else u) = db :=
    if_update_map_id db _ _ hnone
  have hcond : (!truthy r.name && !truthy r.email) = false := by
    cases hn : truthy r.name <;> cases he : truthy r.email <;>
      simp_all
  constructor
  · unfold updateProfile
    rw [if_neg (by simp [hv]), if_neg (by simp [hcond]), hmap]
  · simp [getProfile, hmiss]

/-- Witness for the amended C6 at the empty accounts table. -/
theorem updateProfile_missing_account_witness :
    validUpdate nameOnlyReq = true ∧
    (truthy nameOnlyReq.name || truthy nameOnlyReq.email) = true ∧
    (([] : UsersDb).find? (fun u => u.id == 1) = none) ∧
    (updateProfile [] 1 nameOnlyReq 5 = (.ok200, []) ∧
     getProfile [] 1 = .notFound404) :=
  ⟨by decide, by decide, by decide,
   updateProfile_missing_account [] 1 nameOnlyReq 5 (by decide) (by decide) (by decide)⟩

/-- C9 counterexample: an UpdateProfile call supplying only `name` still
changes a field it did not supply — `updated_at` is unconditionally rewritten
to the current timestamp by the UPDATE statement. -/
theorem updateProfile_changes_unsupplied_field :
    nameOnlyReq.email = none ∧
    updateProfile [sampleUser] 1 nameOnlyReq 7
      = (.ok200, [⟨1, "al@x.com", "bcrypt-hash", "Bob", 0, 7⟩]) ∧
    (⟨1, "al@x.com", "bcrypt-hash", "Bob", 0, 7⟩ : User).updated_at
      ≠ sampleUser.updated_at := by decide

/-- C9 as amended: a valid UpdateProfile with at least one supplied field
answers 200 and rewrites exactly the rows whose id matches the token's;
on such a row each supplied (truthy) field among name and email is set to
the supplied value, `id`, `password` and `created_at` are untouched, each
unsupplied field among name and email keeps its previous value, and
`updated_at` is always set to the current timestamp. -/
theorem updateProfile_supplied_fields_only
    (db : UsersDb) (userId : Int) (r : UpdateProfileReq) (now : Nat)
    (hv : validUpdate r = true)
    (hf : (truthy r.name || truthy r.email) = true) :
    (updateProfile db userId r now).1 = .ok200 ∧
    (updateProfile db userId r now).2
      = db.map (fun u => if u.id == userId then applyUpdates r now u else u) ∧
    ∀ u : User,
      (applyUpdates r now u).id = u.id ∧
      (applyUpdates r now u).password = u.password ∧
      (applyUpdates r now u).created_at = u.created_at ∧
      (applyUpdates r now u).updated_at = now ∧
      (truthy r.name = false → (applyUpdates r now u).name = u.name) ∧
      (truthy r.email = false → (applyUpdates r now u).email = u.email) ∧
      (∀ n, r.name = some n → truthy r.name = true → (applyUpdates r now u).name = n) ∧
      (∀ e, r.email = some e → truthy r.email = true → (applyUpdates r now u).email = e) := by
  have hcond : (!truthy r.name && !truthy r.email) = false := by
    cases hn : truthy r.name <;> cases he : truthy r.email <;> simp_all
  refine ⟨by simp [updateProfile, hv, hcond], by simp [updateProfile, hv, hcond], ?_⟩
  intro u
  unfold applyUpdates
  cases hn : truthy r.name <;> cases he : truthy r.email <;> simp_all

/-- Witness for the amended C9 at a concrete account and name-only update. -/
theorem updateProfile_supplied_fields_only_witness :
    validUpdate nameOnlyReq = true ∧
    (truthy nameOnlyReq.name || truthy nameOnlyReq.email) = true ∧
    ((updateProfile [sampleUser] 1 nameOnlyReq 7).1 = .ok200 ∧
     (updateProfile [sampleUser] 1 nameOnlyReq 7).2
       = [sampleUser].map
           (fun u => if u.id == 1 then applyUpdates nameOnlyReq 7 u else u) ∧
     ∀ u : User,
       (applyUpdates nameOnlyReq 7 u).id = u.id ∧
       (applyUpdates nameOnlyReq 7 u).password = u.password ∧
       (applyUpdates nameOnlyReq 7 u).created_at = u.created_at ∧
       (applyUpdates nameOnlyReq 7 u).updated_at = 7 ∧
       (truthy nameOnlyReq.name = false → (applyUpdates nameOnlyReq 7 u).name = u.name) ∧
       (truthy nameOnlyReq.email = false → (applyUpdates nameOnlyReq 7 u).email = u.email) ∧
       (∀ n, nameOnlyReq.name = some n → truthy nameOnlyReq.name = true →
          (applyUpdates nameOnlyReq 7 u).name = n) ∧
       (∀ e, nameOnlyReq.email = some e → truthy nameOnlyReq.email = true →
          (applyUpdates nameOnlyReq 7 u).email = e)) :=
  ⟨by decide, by decide,
   updateProfile_supplied_fields_only [sampleUser] 1 nameOnlyReq 7 (by decide) (by decide)⟩

/-- C1: every successful CreateBooking answers 201 with
`totalAmount = service.price * guests` computed from the catalog row read
during the request (guests defaulting to 1), and persists a booking row
carrying that same total. -/
theorem createBooking_total_eq_price_times_guests
    (st : BookingState) (r : CreateBookingReq) (rowId : Int) (svc : Service)
    (hsvc : st.services.find? (fun s => s.id == r.serviceId) = some svc)
    (h : (createBooking st r rowId).1.isCreated = true) :
    (createBooking st r rowId).1
      = .created201 rowId (svc.price * ((r.guests.getD 1 : Int) : ℚ)) ∧
    ∃ b ∈ (createBooking st r rowId).2.bookings,
      b.id = rowId ∧ b.total_amount = svc.price * ((r.guests.getD 1 : Int) : ℚ) := by
  cases hval : validCreateBooking r with
  | false =>
    exfalso
    unfold createBooking at h
    rw [if_pos (by simp [hval])] at h
    simp [CreateBookingResult.isCreated] at h
  | true =>
    by_cases hslots : svc.available_slots < r.guests.getD 1
    · exfalso
      have hrw : createBooking st r rowId = (.notEnoughSlots400, st) := by
        simp only [createBooking, hsvc]
        rw [if_neg (by simp [hval]), if_pos hslots]
      rw [hrw] at h
      simp [CreateBookingResult.isCreated] at h
    · have hrw : createBooking st r rowId
          = (.created201 rowId (svc.price * ((r.guests.getD 1 : Int) : ℚ)),
             ⟨st.services.map (fun s =>
                if s.id == r.serviceId then
                  { s with available_slots := s.available_slots - r.guests.getD 1 }
                else s),
              st.bookings ++
                [⟨rowId, r.userId, r.serviceId, r.bookingDate, r.guests.getD 1,
                  svc.price * ((r.guests.getD 1 : Int) : ℚ), "pending", "pending"⟩]⟩) := by
        simp only [createBooking, hsvc]
        rw [if_neg (by simp [hval]), if_neg hslots]
      rw [hrw]
      exact ⟨rfl, ⟨_, List.mem_append_right _ (List.mem_cons_self _ _), rfl, rfl⟩⟩

/-- Witness for C1: two guests against a 150-per-unit item yield 201 with
total 150 times 2. -/
theorem createBooking_total_eq_price_times_guests_witness :
    sampleBookingState.services.find? (fun s => s.id == twoGuestsReq.serviceId)
      = some sampleService ∧
    (createBooking sampleBookingState twoGuestsReq 1).1.isCreated = true ∧
    ((createBooking sampleBookingState twoGuestsReq 1).1
       = .created201 1 (sampleService.price * ((twoGuestsReq.guests.getD 1 : Int) : ℚ)) ∧
     ∃ b ∈ (createBooking sampleBookingState twoGuestsReq 1).2.bookings,
       b.id = 1 ∧
       b.total_amount = sampleService.price * ((twoGuestsReq.guests.getD 1 : Int) : ℚ)) :=
  ⟨rfl, rfl,
   createBooking_total_eq_price_times_guests sampleBookingState twoGuestsReq 1
     sampleService rfl rfl⟩

/-- C10: CreateBooking rejects a supplied party size outside 1..10 with the
400 validation response, whatever the catalog state (so even when the item
has ample capacity), and an omitted party size makes the request behave
exactly as a request for one guest. -/
theorem createBooking_guests_range_and_default
    (st : BookingState) (r : CreateBookingReq) (rowId : Int) :
    (∀ g : Int, r.guests = some g → (g < 1 ∨ 10 < g) →
        createBooking st r rowId = (.validationError400, st)) ∧
    (r.guests = none →
        createBooking st r rowId = createBooking st { r with guests := some 1 } rowId) := by
  constructor
  · intro g hg hrange
    have hval : validCreateBooking r = false := by
      unfold validCreateBooking
      rw [hg]
      rcases hrange with h1 | h2
      · simp [show ¬(1 ≤ g) by omega]
      · simp [show ¬(g ≤ 10) by omega]
    unfold createBooking
    rw [if_pos (by simp [hval])]
  · intro hnone
    obtain ⟨userId, serviceId, bookingDate, iso, guests⟩ := r
    simp only at hnone
    subst hnone
    simp [createBooking, validCreateBooking]

/-- Witness for C10: 20 guests are rejected even with 100 free slots, and an
omitted party size behaves as one guest. -/
theorem createBooking_guests_range_and_default_witness :
    tooManyGuestsReq.guests = some 20 ∧ ((20 : Int) < 1 ∨ 10 < (20 : Int)) ∧
    createBooking sampleBookingState tooManyGuestsReq 1
      = (.validationError400, sampleBookingState) ∧
    noGuestsReq.guests = none ∧
    createBooking sampleBookingState noGuestsReq 1
      = createBooking sampleBookingState { noGuestsReq with guests := some 1 } 1 :=
  ⟨rfl, by decide,
   (createBooking_guests_range_and_default sampleBookingState tooManyGuestsReq 1).1
     20 rfl (by decide),
   rfl,
   (createBooking_guests_range_and_default sampleBookingState noGuestsReq 1).2 rfl⟩

/-- After the refund UPDATE (keyed on `payment_id` alone) every row with
that payment id carries status `refunded`, so the refund handler's lookup
for a `completed` row with the id can no longer succeed. -/
theorem refund_update_map_no_completed (l : PaymentsDb) (pid resp : String) (now : Nat) :
    (l.map (fun p =>
        if p.payment_id == pid then
          { p with status := "refunded", gateway_response := some resp, updated_at := now }
        else p)).find?
      (fun p => p.payment_id == pid && p.status == "completed") = none := by
  rw [List.find?_eq_none]
  intro x hx
  obtain ⟨p, hp, rfl⟩ := List.mem_map.mp hx
  by_cases hpp : (p.payment_id == pid) = true
  · rw [if_pos hpp]
    simp only [Bool.and_eq_true, beq_iff_eq]
    rintro ⟨h1, h2⟩
    exact absurd h2 (by decide)
  · rw [if_neg hpp]
    simp only [Bool.and_eq_true, beq_iff_eq]
    rintro ⟨h1, h2⟩
    exact hpp (by simp [h1])

/-- C4: RefundPayment answers NotFound whenever no stored payment with the
id has status exactly `completed`; and whenever it succeeds, such a row
existed and a second RefundPayment on the same id — the status now being
`refunded` — fails with NotFound, leaving the table as the first refund
left it. -/
theorem refundPayment_only_completed
    (db : PaymentsDb) (pid reason reason2 uuid uuid2 : String)
    (ok1 ok2 : Bool) (t1 t2 : Nat) :
    ((∀ p ∈ db, ¬(p.payment_id = pid ∧ p.status = "completed")) →
        refundPayment db pid reason ok1 uuid t1 = (.notFound404, db)) ∧
    ((refundPayment db pid reason ok1 uuid t1).1.isRefunded = true →
        (∃ p ∈ db, p.payment_id = pid ∧ p.status = "completed") ∧
        refundPayment (refundPayment db pid reason ok1 uuid t1).2 pid reason2 ok2 uuid2 t2
          = (.notFound404, (refundPayment db pid reason ok1 uuid t1).2)) := by
  constructor
  · intro hno
    have hfind : db.find? (fun p => p.payment_id == pid && p.status == "completed") = none := by
      rw [List.find?_eq_none]
      intro p hp
      simpa [Bool.and_eq_true] using hno p hp
    unfold refundPayment
    rw [hfind]
  · intro h
    cases hfind : db.find? (fun p => p.payment_id == pid && p.status == "completed") with
    | none =>
      exfalso
      unfold refundPayment at h
      rw [hfind] at h
      exact Bool.false_ne_true h
    | some payment =>
      cases hok : ok1 with
      | false =>
        exfalso
        subst hok
        unfold refundPayment at h
        rw [hfind] at h
        exact Bool.false_ne_true h
      | true =>
        subst hok
        have hb := List.find?_some hfind
        simp only [Bool.and_eq_true, beq_iff_eq] at hb
        refine ⟨⟨payment, List.mem_of_find?_eq_some hfind, hb.1, hb.2⟩, ?_⟩
        have hrw : refundPayment db pid reason true uuid t1
            = (.refunded200 ("refund_" ++ uuid) payment.amount,
               db.map (fun p =>
                 if p.payment_id == pid then
                   { p with status := "refunded",
                            gateway_response :=
                              some (refundResponseJson ("refund_" ++ uuid) reason t1),
                            updated_at := t1 }
                 else p)) := by
          unfold refundPayment
          rw [hfind]
          exact rfl
        rw [hrw]
        unfold refundPayment
        rw [refund_update_map_no_completed db pid
              (refundResponseJson ("refund_" ++ uuid) reason t1) t1]

/-- Witness for C4: on the empty table a refund is NotFound; on a table with
one completed payment the first refund succeeds and the second is NotFound. -/
theorem refundPayment_only_completed_witness :
    refundPayment [] "pay-1" "Customer request" true "u1" 1 = (.notFound404, []) ∧
    (refundPayment [samplePayment] "pay-1" "Customer request" true "u1" 1).1.isRefunded
      = true ∧
    ((∃ p ∈ [samplePayment], p.payment_id = "pay-1" ∧ p.status = "completed") ∧
     refundPayment (refundPayment [samplePayment] "pay-1" "Customer request" true "u1" 1).2
         "pay-1" "retry" true "u2" 2
       = (.notFound404,
          (refundPayment [samplePayment] "pay-1" "Customer request" true "u1" 1).2)) :=
  ⟨(refundPayment_only_completed [] "pay-1" "Customer request" "x" "u1" "ux"
      true true 1 2).1 (by decide),
   rfl,
   (refundPayment_only_completed [samplePayment] "pay-1" "Customer request" "retry"
      "u1" "u2" true true 1 2).2 rfl⟩

/-- Either CreateBooking leaves the state untouched (any failure), or it
succeeded on a looked-up item with sufficient capacity and produced exactly
the insert-plus-decrement state. -/
theorem createBooking_state_cases (st : BookingState) (r : CreateBookingReq) (rowId : Int) :
    (createBooking st r rowId).2 = st ∨
    ∃ svc, st.services.find? (fun s => s.id == r.serviceId) = some svc ∧
      validCreateBooking r = true ∧
      ¬ svc.available_slots < r.guests.getD 1 ∧
      (createBooking st r rowId).2 =
        ⟨st.services.map (fun s =>
            if s.id == r.serviceId then
              { s with available_slots := s.available_slots - r.guests.getD 1 }
            else s),
         st.bookings ++
           [⟨rowId, r.userId, r.serviceId, r.bookingDate, r.guests.getD 1,
             svc.price * ((r.guests.getD 1 : Int) : ℚ), "pending", "pending"⟩]⟩ := by
  cases hval : validCreateBooking r with
  | false =>
    left
    unfold createBooking
    rw [if_pos (by simp [hval])]
  | true =>
    cases hfind : st.services.find? (fun s => s.id == r.serviceId) with
    | none =>
      left
      simp only [createBooking, hfind]
      rw [if_neg (by simp [hval])]
    | some svc =>
      by_cases hslots : svc.available_slots < r.guests.getD 1
      · left
        simp only [createBooking, hfind]
        rw [if_neg (by simp [hval]), if_pos hslots]
      · right
        refine ⟨svc, rfl, rfl, hslots, ?_⟩
        simp only [createBooking, hfind]
        rw [if_neg (by simp [hval]), if_neg hslots]

/-- The first catalog row matching an id is the only row with that id when
ids are pairwise distinct. -/
theorem find?_eq_of_unique_ids {l : List Service} {tid : Int} {svc s : Service}
    (huniq : l.Pairwise (fun a b => a.id ≠ b.id))
    (hfind : l.find? (fun s => s.id == tid) = some svc)
    (hmem : s ∈ l) (hid : s.id = tid) : s = svc := by
  induction l with
  | nil => simp at hmem
  | cons a l ih =>
    rw [List.pairwise_cons] at huniq
    rw [List.find?_cons] at hfind
    cases ha : (a.id == tid) with
    | true =>
      rw [ha] at hfind
      simp only [Option.some.injEq] at hfind
      rcases List.mem_cons.mp hmem with rfl | hs
      · exact hfind
      · exfalso
        have haid : a.id = tid := by simpa using ha
        exact huniq.1 s hs (by rw [haid, hid])
    | false =>
      rw [ha] at hfind
      rcases List.mem_cons.mp hmem with rfl | hs
      · exact absurd (by simpa using hid) (by simpa using ha)
      · exact ih huniq.2 hfind hs

/-- One CreateBooking step preserves distinct catalog ids and nonnegative
remaining capacity. -/
theorem createBooking_step_preserves (st : BookingState) (r : CreateBookingReq) (rowId : Int)
    (huniq : UniqueServiceIds st) (hnn : SlotsNonneg st) :
    UniqueServiceIds (createBooking st r rowId).2 ∧ SlotsNonneg (createBooking st r rowId).2 := by
  rcases createBooking_state_cases st r rowId with heq | ⟨svc, hfind, hval, hslots, heq⟩
  · rw [heq]; exact ⟨huniq, hnn⟩
  · rw [heq]
    constructor
    · show (st.services.map _).Pairwise _
      refine List.Pairwise.map _ ?_ huniq
      intro a b hab
      by_cases ha : (a.id == r.serviceId) = true <;>
        by_cases hb : (b.id == r.serviceId) = true <;>
          simp [ha, hb, hab]
    · intro s' hs'
      obtain ⟨s, hsmem, rfl⟩ := List.mem_map.mp hs'
      by_cases hsid : (s.id == r.serviceId) = true
      · have hseq : s = svc :=
          find?_eq_of_unique_ids huniq hfind hsmem (by simpa using hsid)
        subst hseq
        rw [if_pos hsid]
        show (0 : Int) ≤ s.available_slots - r.guests.getD 1
        omega
      · rw [if_neg hsid]
        exact hnn s hsmem

/-- Any sequential run of CreateBooking requests keeps every catalog item's
remaining capacity nonnegative, given distinct catalog ids. -/
theorem runBookings_nonneg (reqs : List (CreateBookingReq × Int)) (st : BookingState)
    (huniq : UniqueServiceIds st) (hnn : SlotsNonneg st) :
    SlotsNonneg (runBookings st reqs) := by
  induction reqs generalizing st with
  | nil => exact hnn
  | cons rr reqs ih =>
    have h := createBooking_step_preserves st rr.1 rr.2 huniq hnn
    exact ih _ h.1 h.2

/-- C2: a valid request whose party size exceeds the looked-up item's
remaining capacity fails with the 400 InvalidRequest response and changes
nothing; a successful request decrements that item's capacity by exactly
the party size (which the check bounds by the capacity); and across any
sequential run of CreateBooking requests every item's remaining capacity
stays nonnegative. -/
theorem createBooking_capacity_invariant
    (st : BookingState) (r : CreateBookingReq) (rowId : Int) (svc : Service)
    (hsvc : st.services.find? (fun s => s.id == r.serviceId) = some svc) :
    (validCreateBooking r = true → svc.available_slots < r.guests.getD 1 →
        createBooking st r rowId = (.notEnoughSlots400, st)) ∧
    ((createBooking st r rowId).1.isCreated = true →
        r.guests.getD 1 ≤ svc.available_slots ∧
        (createBooking st r rowId).2.services.find? (fun s => s.id == r.serviceId)
          = some { svc with available_slots := svc.available_slots - r.guests.getD 1 }) ∧
    (∀ reqs : List (CreateBookingReq × Int),
        UniqueServiceIds st → SlotsNonneg st → SlotsNonneg (runBookings st reqs)) := by
  refine ⟨?_, ?_, fun reqs hu hn => runBookings_nonneg reqs st hu hn⟩
  · intro hval hslots
    simp only [createBooking, hsvc]
    rw [if_neg (by simp [hval]), if_pos hslots]
  · intro h
    cases hval : validCreateBooking r with
    | false =>
      exfalso
      unfold createBooking at h
      rw [if_pos (by simp [hval])] at h
      simp [CreateBookingResult.isCreated] at h
    | true =>
      by_cases hslots : svc.available_slots < r.guests.getD 1
      · exfalso
        have hrw : createBooking st r rowId = (.notEnoughSlots400, st) := by
          simp only [createBooking, hsvc]
          rw [if_neg (by simp [hval]), if_pos hslots]
        rw [hrw] at h
        simp [CreateBookingResult.isCreated] at h
      · have hrw : createBooking st r rowId
            = (.created201 rowId (svc.price * ((r.guests.getD 1 : Int) : ℚ)),
               ⟨st.services.map (fun s =>
                  if s.id == r.serviceId then
                    { s with available_slots := s.available_slots - r.guests.getD 1 }
                  else s),
                st.bookings ++
                  [⟨rowId, r.userId, r.serviceId, r.bookingDate, r.guests.getD 1,
                    svc.price * ((r.guests.getD 1 : Int) : ℚ), "pending", "pending"⟩]⟩) := by
          simp only [createBooking, hsvc]
          rw [if_neg (by simp [hval]), if_neg hslots]
        rw [hrw]
        refine ⟨Int.not_lt.mp hslots, ?_⟩
        show (st.services.map _).find? _ = _
        rw [find?_if_update_map st.services (fun s => s.id == r.serviceId)
              (fun s => { s with available_slots := s.available_slots - r.guests.getD 1 })
              (fun _ => rfl), hsvc]
        have hsid : svc.id = r.serviceId := by simpa using List.find?_some hsvc
        simp [hsid]

/-- Witness for C2 on an item with 3 free slots: five guests are rejected
with the state unchanged, two guests succeed and leave 1 slot, and a
two-request run keeps capacity nonnegative. -/
theorem createBooking_capacity_invariant_witness :
    tightBookingState.services.find? (fun s => s.id == fiveGuestsReq.serviceId)
      = some tightService ∧
    validCreateBooking fiveGuestsReq = true ∧
    tightService.available_slots < fiveGuestsReq.guests.getD 1 ∧
    createBooking tightBookingState fiveGuestsReq 1
      = (.notEnoughSlots400, tightBookingState) ∧
    (createBooking tightBookingState twoGuestsReq 1).1.isCreated = true ∧
    (twoGuestsReq.guests.getD 1 ≤ tightService.available_slots ∧
     (createBooking tightBookingState twoGuestsReq 1).2.services.find?
         (fun s => s.id == twoGuestsReq.serviceId)
       = some { tightService with
                  available_slots := tightService.available_slots - twoGuestsReq.guests.getD 1 }) ∧
    SlotsNonneg (runBookings tightBookingState [(twoGuestsReq, 1), (fiveGuestsReq, 2)]) :=
  ⟨rfl, by decide, by decide,
   (createBooking_capacity_invariant tightBookingState fiveGuestsReq 1 tightService rfl).1
     (by decide) (by decide),
   rfl,
   ((createBooking_capacity_invariant tightBookingState twoGuestsReq 1 tightService rfl).2.1
     rfl),
   ((createBooking_capacity_invariant tightBookingState twoGuestsReq 1 tightService rfl).2.2
     [(twoGuestsReq, 1), (fiveGuestsReq, 2)] (by decide) (by decide))⟩
